import Mathlib

/-!
Shallow embedding of the sequential tool-orchestration core of the
RAG chatbot backend (`backend/ai_generator.py`, `backend/search_tools.py`).

Python dictionaries of tool parameters are modelled as association lists
with string keys; Python values occurring as tool parameters are modelled
by the inductive `PyValue` (strings and integers, which is what the tool
schemas admit).  Scores that Python computes in floating point are
modelled in ℚ: every score produced by the similarity code is a ratio of
small integers, and the claims are about those ratios.
-/

/-- A Python value as it occurs in a tool-call parameter mapping. -/
inductive PyValue where
  | str (s : String)
  | int (n : Int)
deriving DecidableEq

/-- A Python keyword-argument dictionary (keys are unique in Python). -/
abbrev ParamMap := List (String × PyValue)

/-- `dict.keys()` as a duplicate-free list (Python dict keys are unique). -/
def keysOf (p : ParamMap) : List String :=
  (p.map Prod.fst).dedup

/-- `params[key]` / `params.get(key)`: first binding of the key. -/
def pyGet (p : ParamMap) (k : String) : Option PyValue :=
  p.lookup k

/-- `s.lower().split()`: lowercase, split on whitespace runs, drop empty
pieces; returned deduplicated, modelling the Python `set(...)` of words. -/
def pyWords (s : String) : List String :=
  ((s.toLower.split (fun c => c.isWhitespace)).filter (fun w => w ≠ "")).dedup

/-- Size of the intersection of two word sets (argument lists are deduped). -/
def interCount (w1 w2 : List String) : Nat :=
  (w1.filter (fun x => w2.contains x)).length

/-- Size of the union of two word sets (argument lists are deduped). -/
def unionCount (w1 w2 : List String) : Nat :=
  (w1 ++ w2.filter (fun x => !w1.contains x)).length

/-- `SequentialToolProcessor._string_similarity`. -/
def _string_similarity (s1 s2 : String) : ℚ :=
  let s1_words := pyWords s1
  let s2_words := pyWords s2
  if s1_words.isEmpty && s2_words.isEmpty then 1
  else if s1_words.isEmpty || s2_words.isEmpty then 0
  else (interCount s1_words s2_words : ℚ) / (unionCount s1_words s2_words : ℚ)

/-- `SequentialToolProcessor._calculate_parameter_similarity`. -/
def _calculate_parameter_similarity (params1 params2 : ParamMap) : ℚ :=
  if params1.isEmpty && params2.isEmpty then 1
  else if params1.isEmpty || params2.isEmpty then 0
  else
    let common_keys := (keysOf params1).filter (fun k => (keysOf params2).contains k)
    if common_keys.isEmpty then 0
    else
      let total_similarity := common_keys.foldl (fun acc key =>
        match pyGet params1 key, pyGet params2 key with
        | some v1, some v2 =>
          if v1 = v2 then acc + 1
          else
            match v1, v2 with
            | .str s1, .str s2 => acc + _string_similarity s1 s2
            | _, _ => acc
        | _, _ => acc) 0
      total_similarity / (common_keys.length : ℚ)

/-- `ConversationRound` enumeration. -/
inductive ConversationRound where
  | FIRST_ROUND
  | FOLLOW_UP_ROUND
  | FINAL_ROUND
deriving DecidableEq

/-- `ToolCallRecord` (the wall-clock `timestamp` field is never read by any
logic in the source and is omitted). -/
structure ToolCallRecord where
  tool_name : String
  parameters : ParamMap
  round_num : Nat
deriving DecidableEq

/-- `SequentialToolProcessor` state (the unused `conversation_messages`
field, written only by `__init__`/`reset_state`, is omitted). -/
structure SequentialToolProcessor where
  max_rounds : Nat
  loop_similarity_threshold : ℚ
  tool_call_history : List ToolCallRecord
  current_round : Nat
  gathered_info_summary : String

/-- Freshly constructed processor (`__init__`, default threshold 0.8). -/
def SequentialToolProcessor.init (max_rounds : Nat) : SequentialToolProcessor :=
  { max_rounds := max_rounds
    loop_similarity_threshold := 4/5
    tool_call_history := []
    current_round := 0
    gathered_info_summary := "" }

/-- `SequentialToolProcessor.reset_state`. -/
def SequentialToolProcessor.reset_state (p : SequentialToolProcessor) : SequentialToolProcessor :=
  { p with tool_call_history := [], current_round := 0, gathered_info_summary := "" }

/-- `SequentialToolProcessor.add_tool_call_record`. -/
def SequentialToolProcessor.add_tool_call_record (p : SequentialToolProcessor)
    (tool_name : String) (parameters : ParamMap) : SequentialToolProcessor :=
  { p with tool_call_history :=
      p.tool_call_history ++ [⟨tool_name, parameters, p.current_round⟩] }

/-- Python `xs[-n:]`. -/
def lastN (n : Nat) (xs : List α) : List α :=
  xs.drop (xs.length - n)

/-- `SequentialToolProcessor.detect_loop`. -/
def SequentialToolProcessor.detect_loop (p : SequentialToolProcessor)
    (tool_name : String) (parameters : ParamMap) : Bool :=
  if p.tool_call_history.length < 2 then false
  else
    (lastN 3 p.tool_call_history).any (fun record =>
      record.tool_name = tool_name &&
        decide (_calculate_parameter_similarity record.parameters parameters >
          p.loop_similarity_threshold))

/-- `SequentialToolProcessor.should_continue_rounds`. -/
def SequentialToolProcessor.should_continue_rounds (p : SequentialToolProcessor) : Bool :=
  p.current_round < p.max_rounds

/-- `SequentialToolProcessor.get_round_type`. -/
def SequentialToolProcessor.get_round_type (p : SequentialToolProcessor) : ConversationRound :=
  if p.current_round = 0 then ConversationRound.FIRST_ROUND
  else if p.current_round < p.max_rounds then ConversationRound.FOLLOW_UP_ROUND
  else ConversationRound.FINAL_ROUND

/-- Python `needle in haystack` on strings: a nonempty needle occurs as a
substring exactly when splitting on it yields more than one piece. -/
def pyIn (needle haystack : String) : Bool :=
  needle.isEmpty || (haystack.splitOn needle).length ≥ 2

/-- One entry of the `tool_results` batch handed back to the model (the
constant `"type": "tool_result"` discriminator is implicit in the type). -/
structure ToolResult where
  tool_use_id : String
  content : String
deriving DecidableEq

/-- The per-result keyword heuristic inside
`SequentialToolProcessor.update_gathered_info`. -/
def classifyInfo (content : String) : Option String :=
  if pyIn "course" content.toLower && pyIn "outline" content.toLower then
    some "course_outline"
  else if pyIn "lesson" content.toLower then some "lesson_content"
  else if pyIn "search" content.toLower || content.length > 200 then
    some "search_results"
  else none

/-- `SequentialToolProcessor.update_gathered_info`.  Python joins
`set(info_types)` whose iteration order is unspecified; the model joins the
categories deduplicated in first-occurrence order.  No control decision in
the source reads this string. -/
def SequentialToolProcessor.update_gathered_info (p : SequentialToolProcessor)
    (tool_results : List ToolResult) : SequentialToolProcessor :=
  let info_types := tool_results.filterMap (fun r => classifyInfo r.content)
  { p with gathered_info_summary := String.intercalate ", " info_types.dedup }

/-- A display-ready citation produced by a tool (`search_tools.py`). -/
structure Source where
  text : String
  link : Option String
deriving DecidableEq

/-- A capability registered in the `ToolManager`: its declared schema name,
its `execute(**kwargs)` body (`.error` models a raised exception, carrying
`str(e)`), and its mutable `last_sources` attribute. -/
structure RegisteredTool where
  name : String
  run : ParamMap → Except String String
  last_sources : List Source

/-- `ToolManager`: the `self.tools` dict, insertion-ordered with unique
names, as Python dicts are. -/
structure ToolManager where
  tools : List RegisteredTool

/-- `ToolManager.execute_tool`.  The `.ok` result for an unregistered name
models the literal string returned (no exception raised on that path). -/
def ToolManager.execute_tool (m : ToolManager) (tool_name : String)
    (kwargs : ParamMap) : Except String String :=
  match m.tools.find? (fun t => t.name = tool_name) with
  | none => .ok ("Tool '" ++ tool_name ++ "' not found")
  | some t => t.run kwargs

/-- `ToolManager.get_last_sources`: scan the registered tools in dict
(insertion) order and return the first truthy `last_sources` attribute. -/
def ToolManager.get_last_sources (m : ToolManager) : List Source :=
  match m.tools.find? (fun t => !t.last_sources.isEmpty) with
  | some t => t.last_sources
  | none => []

/-- `ToolManager.reset_sources`: clear every tool's `last_sources`. -/
def ToolManager.reset_sources (m : ToolManager) : ToolManager :=
  { tools := m.tools.map (fun t => { t with last_sources := [] }) }

/-- A tool producing sources: the assignment `self.last_sources = sources`
performed inside a tool's execution (e.g. `CourseSearchTool._format_results`,
`CourseOutlineTool.execute`), seen through the registry that holds the tool. -/
def ToolManager.set_sources (m : ToolManager) (tool_name : String)
    (sources : List Source) : ToolManager :=
  { tools := m.tools.map (fun t =>
      if t.name = tool_name then { t with last_sources := sources } else t) }

/-- One block of a reasoning-model response (`response.content` entries). -/
inductive ContentBlock where
  | text (text : String)
  | tool_use (id : String) (name : String) (input : ParamMap)
deriving DecidableEq

/-- A reasoning-model response as the orchestration reads it. -/
structure ModelResponse where
  content : List ContentBlock
  stop_reason : String
deriving DecidableEq

/-- `response.content[0].text`: `.ok` the text of the first block, `.error`
when the first block has no `text` attribute or the list is empty (Python
raises there; the exact runtime exception text is environment-specific and
no claim depends on it). -/
def pyFirstText (response : ModelResponse) : Except String String :=
  match response.content with
  | ContentBlock.text t :: _ => .ok t
  | ContentBlock.tool_use _ _ _ :: _ => .error "AttributeError"
  | [] => .error "IndexError"

/-- A tool schema as passed through opaquely to the provider (`tools`
argument; only its presence and identity matter to the claims). -/
structure ToolSchema where
  name : String
deriving DecidableEq

/-- Content of one conversation message. -/
inductive MessageContent where
  | text (s : String)
  | blocks (bs : List ContentBlock)
  | results (rs : List ToolResult)
deriving DecidableEq

/-- One entry of the `messages` list sent to the provider. -/
structure ChatMessage where
  role : String
  content : MessageContent
deriving DecidableEq

/-- Observable events of one `generate_response` run: each reasoning-model
call (`messages.create`), recording the `tools` schemas attached to the
request (`none` when the request carries no `tools` key), and each tool
execution dispatched through `ToolManager.execute_tool`. -/
inductive Event where
  | apiCall (tools : Option (List ToolSchema))
  | toolExec (name : String) (params : ParamMap)
deriving DecidableEq

/-- The synthetic tool-result content injected on loop detection. -/
def loopDetectedMsg : String :=
  "Loop detected: Similar search already performed. Please synthesize available information."

/-- The loop body of `AIGenerator._execute_tools_with_loop_detection`:
process the response's content blocks in order, threading the processor
state and emitting one `Event.toolExec` per actual execution. -/
def execToolBlocks (proc : SequentialToolProcessor) (mgr : ToolManager) :
    List ContentBlock → List ToolResult × SequentialToolProcessor × List Event
  | [] => ([], proc, [])
  | ContentBlock.text _ :: rest => execToolBlocks proc mgr rest
  | ContentBlock.tool_use id name input :: rest =>
    if proc.detect_loop name input then
      ([⟨id, loopDetectedMsg⟩], proc, [])
    else
      let proc1 := proc.add_tool_call_record name input
      let entry : ToolResult :=
        match mgr.execute_tool name input with
        | .ok s => ⟨id, s⟩
        | .error e => ⟨id, "Tool execution error: " ++ e ++ ". Please work with available information."⟩
      let (rs, proc2, evs) := execToolBlocks proc1 mgr rest
      (entry :: rs, proc2, Event.toolExec name input :: evs)

/-- `AIGenerator._execute_tools_with_loop_detection` (returns `None` for an
empty batch, as the source does). -/
def _execute_tools_with_loop_detection (proc : SequentialToolProcessor)
    (mgr : ToolManager) (response : ModelResponse) :
    Option (List ToolResult) × SequentialToolProcessor × List Event :=
  let (rs, proc2, evs) := execToolBlocks proc mgr response.content
  (if rs.isEmpty then none else some rs, proc2, evs)

/-- `AIGenerator` configuration (the prompt templates and `base_params` are
constants; the system-prompt text is opaque to every claim). -/
structure AIGenerator where
  model : String
  max_tool_rounds : Nat

/-- `AIGenerator._make_final_synthesis_call`: one reasoning-model call with
no `tools` key; its surrounding `try` turns any failure into the degraded
synthesis message. -/
def _make_final_synthesis_call (script : Nat → ModelResponse)
    (ncalls : Nat) (events : List Event) : String × List Event :=
  let final_response := script ncalls
  let events := events ++ [Event.apiCall none]
  match pyFirstText final_response with
  | .ok t => (t, events)
  | .error e =>
    ("I gathered information but encountered an error during synthesis: " ++ e, events)

/-- The `while self.sequential_processor.should_continue_rounds()` loop of
`AIGenerator._handle_sequential_tool_rounds`, with the reasoning model as
`script` (the response to the `n`-th `messages.create` call of the run).
`fuel` bounds the remaining iterations; every iteration increments
`current_round`, so the wrapper's `fuel = max_tool_rounds` always suffices
and `fuel = 0` is reached exactly when the loop guard has become false. -/
def roundLoop (script : Nat → ModelResponse) (tools : List ToolSchema)
    (mgr : ToolManager) :
    Nat → SequentialToolProcessor → List ChatMessage → Nat → List Event →
    String × List Event
  | 0, _proc, _messages, ncalls, events =>
    _make_final_synthesis_call script ncalls events
  | fuel + 1, proc, messages, ncalls, events =>
    if proc.should_continue_rounds then
      let proc := { proc with current_round := proc.current_round + 1 }
      let response := script ncalls
      let ncalls := ncalls + 1
      let events := events ++ [Event.apiCall (some tools)]
      let messages := messages ++ [⟨"assistant", MessageContent.blocks response.content⟩]
      if response.stop_reason = "tool_use" then
        let (toolResults, proc2, tevs) := _execute_tools_with_loop_detection proc mgr response
        let events := events ++ tevs
        match toolResults with
        | some rs =>
          let messages := messages ++ [⟨"user", MessageContent.results rs⟩]
          let proc3 := proc2.update_gathered_info rs
          roundLoop script tools mgr fuel proc3 messages ncalls events
        | none =>
          -- `break`: leave the while loop and fall through to synthesis
          _make_final_synthesis_call script ncalls events
      else
        -- plain text response: return `response.content[0].text`; inside the
        -- round's `try`, a malformed response becomes the error message
        match pyFirstText response with
        | .ok t => (t, events)
        | .error e =>
          ("I encountered an error while processing your request: " ++ e, events)
    else
      _make_final_synthesis_call script ncalls events

/-- `AIGenerator._handle_sequential_tool_rounds`. -/
def _handle_sequential_tool_rounds (gen : AIGenerator) (script : Nat → ModelResponse)
    (query : String) (tools : List ToolSchema) (mgr : ToolManager) :
    String × List Event :=
  let proc := (SequentialToolProcessor.init gen.max_tool_rounds).reset_state
  roundLoop script tools mgr gen.max_tool_rounds proc
    [⟨"user", MessageContent.text query⟩] 0 []

/-- `AIGenerator._generate_simple_response`: one reasoning-model call with
no `tools` key, not wrapped in `try` (a malformed response propagates). -/
def _generate_simple_response (script : Nat → ModelResponse) :
    Except String String × List Event :=
  let response := script 0
  (pyFirstText response, [Event.apiCall none])

/-- Python truthiness of the `tools` argument (`None` or `[]` are falsy). -/
def pyTruthyTools : Option (List ToolSchema) → Bool
  | none => false
  | some l => !l.isEmpty

/-- `AIGenerator.generate_response`.  `conversation_history` feeds only the
opaque system-prompt text.  The run's reasoning-model is `script`; the
result pairs the returned string (`.error` models a propagated exception,
possible only on the no-tools path) with the run's event list. -/
def generate_response (gen : AIGenerator) (script : Nat → ModelResponse)
    (query : String) (_conversation_history : Option String)
    (tools : Option (List ToolSchema)) (tool_manager : Option ToolManager) :
    Except String String × List Event :=
  -- reset processor state for the new conversation, then branch on tools
  if !pyTruthyTools tools || tool_manager.isNone then
    _generate_simple_response script
  else
    match tools, tool_manager with
    | some ts, some mgr =>
      let (s, evs) := _handle_sequential_tool_rounds gen script query ts mgr
      (.ok s, evs)
    | _, _ => _generate_simple_response script

/-- Number of tool executions recorded in a run's event list. -/
def countToolExecs (events : List Event) : Nat :=
  (events.filter (fun e => match e with | Event.toolExec _ _ => true | _ => false)).length

/-- The reasoning-model calls of a run, in order, each with the tool
schemas its request carried (`none` = no `tools` key). -/
def apiToolsTrace (events : List Event) : List (Option (List ToolSchema)) :=
  events.filterMap (fun e => match e with | Event.apiCall t => some t | _ => none)

/-- Metadata of one retrieved chunk (`meta.get('course_title')`,
`meta.get('lesson_number')`). -/
structure ChunkMeta where
  course_title : Option String
  lesson_number : Option Int
deriving DecidableEq

/-- Modelled from the spec: `vector_store.SearchResults` — `vector_store.py`
is not among the sources; §3 of the spec fixes the shape {documents,
metadata, distances, error} with parallel sequences. -/
structure SearchResults where
  documents : List String
  metadata : List ChunkMeta
  distances : List ℚ
  error : Option String

/-- Modelled from the spec: `SearchResults.is_empty` — "Empty" means zero
documents (the repo's tests pin `SearchResults([], [], []).is_empty()` true
and a one-document result false). -/
def SearchResults.is_empty (r : SearchResults) : Bool :=
  r.documents.isEmpty

/-- Modelled from the spec: the Similarity Search Provider boundary
(`VectorStore.search` and `VectorStore.get_lesson_link`), opaque functions
per §6 of the spec. -/
structure VectorStore where
  search : String → Option String → Option Int → SearchResults
  get_lesson_link : String → Int → Option String

/-- `CourseSearchTool`: the provider handle and the mutable `last_sources`. -/
structure CourseSearchTool where
  store : VectorStore
  last_sources : List Source

/-- Python truthiness of an `Optional[str]` (`None` and `""` are falsy). -/
def pyTruthyStr : Option String → Bool
  | none => false
  | some s => !s.isEmpty

/-- Python truthiness of an `Optional[int]` (`None` and `0` are falsy). -/
def pyTruthyInt : Option Int → Bool
  | none => false
  | some n => n != 0

/-- `CourseSearchTool._format_results`: returns the formatted text and the
tool with `last_sources` overwritten (the Python loop builds `formatted`
and `sources` in one pass over `zip(documents, metadata)`). -/
def CourseSearchTool._format_results (tool : CourseSearchTool)
    (results : SearchResults) : String × CourseSearchTool :=
  let pairs := results.documents.zip results.metadata
  let formatted := pairs.map (fun dm =>
    let course_title := dm.2.course_title.getD "unknown"
    let header := "[" ++ course_title ++
      (match dm.2.lesson_number with
       | some n => " - Lesson " ++ toString n
       | none => "") ++ "]"
    header ++ "\n" ++ dm.1)
  let sources : List Source := pairs.map (fun dm =>
    let course_title := dm.2.course_title.getD "unknown"
    let source_text := course_title ++
      (match dm.2.lesson_number with
       | some n => " - Lesson " ++ toString n
       | none => "")
    let lesson_link :=
      match dm.2.lesson_number with
      | some n => tool.store.get_lesson_link course_title n
      | none => none
    ⟨source_text, lesson_link⟩)
  (String.intercalate "\n\n" formatted, { tool with last_sources := sources })

/-- `CourseSearchTool.execute`: search, then branch on error / empty /
results; returns the output text and the (possibly updated) tool. -/
def CourseSearchTool.execute (tool : CourseSearchTool) (query : String)
    (course_name : Option String) (lesson_number : Option Int) :
    String × CourseSearchTool :=
  let results := tool.store.search query course_name lesson_number
  match results.error with
  | some e => (e, tool)
  | none =>
    if results.is_empty then
      let filter_info :=
        (if pyTruthyStr course_name then
           " in course '" ++ course_name.getD "" ++ "'"
         else "") ++
        (if pyTruthyInt lesson_number then
           " in lesson " ++ toString (lesson_number.getD 0)
         else "")
      ("No relevant content found" ++ filter_info ++ ".", tool)
    else
      tool._format_results results

/-- Jaccard similarity of lowercase whitespace-tokenized word sets as §4.1
of the spec states it: intersection size ÷ union size, with 1.0 when both
token sets are empty and 0.0 when exactly one is. -/
def spec_jaccard (s1 s2 : String) : ℚ :=
  let w1 := pyWords s1
  let w2 := pyWords s2
  if w1.isEmpty && w2.isEmpty then 1
  else if w1.isEmpty || w2.isEmpty then 0
  else (interCount w1 w2 : ℚ) / (unionCount w1 w2 : ℚ)

/-- The per-shared-key score as §4.1 of the spec states it: 1.0 for exactly
equal values, else the Jaccard word-set similarity when both values are
strings, else 0. -/
def spec_key_score : Option PyValue → Option PyValue → ℚ
  | some v1, some v2 =>
    if v1 = v2 then 1
    else
      match v1, v2 with
      | .str s1, .str s2 => spec_jaccard s1 s2
      | _, _ => 0
  | _, _ => 0

/-- The parameter-similarity computation as §4.1 of the spec states it:
per-key scores summed over the keys present in both mappings, divided by
the number of shared keys, with the empty-mapping and no-shared-key special
cases. -/
def spec_parameter_similarity (params1 params2 : ParamMap) : ℚ :=
  if params1.isEmpty && params2.isEmpty then 1
  else if params1.isEmpty || params2.isEmpty then 0
  else
    let shared := (keysOf params1).filter (fun k => (keysOf params2).contains k)
    if shared.isEmpty then 0
    else
      ((shared.map (fun key => spec_key_score (pyGet params1 key) (pyGet params2 key))).sum) /
        (shared.length : ℚ)

/-! Concrete inputs used by the witness and counterexample theorems. -/

/-- The parameter mapping `{"query": "python basics"}`. -/
def paramQ : ParamMap := [("query", PyValue.str "python basics")]

/-- A response requesting one `search_course_content` call (id `tool1`). -/
def respToolUse1 : ModelResponse :=
  ⟨[ContentBlock.tool_use "tool1" "search_course_content" paramQ], "tool_use"⟩

/-- A response requesting the identical call again (id `tool2`). -/
def respToolUse2 : ModelResponse :=
  ⟨[ContentBlock.tool_use "tool2" "search_course_content" paramQ], "tool_use"⟩

/-- A plain-text response. -/
def respDone : ModelResponse := ⟨[ContentBlock.text "done"], "end_turn"⟩

/-- A reasoning model that requests the same tool with identical parameters
twice in a row, then answers in text. -/
def scriptRepeat : Nat → ModelResponse :=
  fun n => if n = 0 then respToolUse1 else if n = 1 then respToolUse2 else respDone

/-- A reasoning model whose every response requests a tool call. -/
def scriptAlways : Nat → ModelResponse := fun _ => respToolUse1

/-- The schemas advertised for the single search tool. -/
def schemasOne : List ToolSchema := [⟨"search_course_content"⟩]

/-- A registry with one working search tool. -/
def mgrSearch : ToolManager :=
  ⟨[⟨"search_course_content", fun _ => .ok "Python basics content", []⟩]⟩

/-- A registry whose single tool raises on execution. -/
def mgrRaise : ToolManager :=
  ⟨[⟨"broken_tool", fun _ => .error "Database connection failed", []⟩]⟩

/-- A generator configured with `max_tool_rounds = 2` (the default). -/
def genTwoRounds : AIGenerator := ⟨"claude-sonnet-4", 2⟩

/-- The full run of the repeated-identical-request scenario. -/
def runRepeat : Except String String × List Event :=
  generate_response genTwoRounds scriptRepeat "Tell me about Python basics" none
    (some schemasOne) (some mgrSearch)

/-- A processor that has already recorded the identical call twice. -/
def procLoopState : SequentialToolProcessor :=
  ⟨2, 4/5, [⟨"search_course_content", paramQ, 1⟩, ⟨"search_course_content", paramQ, 2⟩], 2, ""⟩

/-- Two sources used in the `get_last_sources` scenarios. -/
def srcA : Source := ⟨"Course A - Lesson 1", none⟩

/-- Second source, produced later than `srcA` in the scenario. -/
def srcB : Source := ⟨"Course B - Lesson 2", none⟩

/-- A registry with two source-tracking tools, `t1` registered before `t2`. -/
def mgrTwoTools : ToolManager :=
  ⟨[⟨"t1", fun _ => .ok "r1", []⟩, ⟨"t2", fun _ => .ok "r2", []⟩]⟩

/-- `t1` produces `[srcA]`, then `t2` produces `[srcB]`. -/
def mgrProduced : ToolManager :=
  (mgrTwoTools.set_sources "t1" [srcA]).set_sources "t2" [srcB]

/-- A provider whose every search yields an empty, error-free result set. -/
def storeEmptyRes : VectorStore :=
  ⟨fun _ _ _ => ⟨[], [], [], none⟩, fun _ _ => none⟩

/-- A search tool over the always-empty provider. -/
def toolOnEmpty : CourseSearchTool := ⟨storeEmptyRes, []⟩

/-- A freshly constructed processor with `max_rounds = 0`, i.e.
`SequentialToolProcessor(max_rounds=0)`. -/
def procZero : SequentialToolProcessor := SequentialToolProcessor.init 0

/-!
Theorems.  Each claim Cn of the specification is settled by the theorem(s)
below carrying its id in the doc comment.
-/

/-- Helper: accumulating the per-key similarity scores by `foldl`, as the
source does, equals adding the sum of `spec_key_score` over the keys. -/
lemma foldl_key_scores (params1 params2 : ParamMap) (l : List String) :
    ∀ a : ℚ,
      l.foldl (fun acc key =>
        match pyGet params1 key, pyGet params2 key with
        | some v1, some v2 =>
          if v1 = v2 then acc + 1
          else
            match v1, v2 with
            | .str s1, .str s2 => acc + _string_similarity s1 s2
            | _, _ => acc
        | _, _ => acc) a =
      a + (l.map (fun key => spec_key_score (pyGet params1 key) (pyGet params2 key))).sum := by
  induction l with
  | nil => intro a; simp
  | cons k rest ih =>
    intro a
    simp only [List.foldl_cons, List.map_cons, List.sum_cons, ih]
    rcases hv1 : pyGet params1 k with _ | v1 <;> rcases hv2 : pyGet params2 k with _ | v2 <;>
      simp only [spec_key_score]
    · ring
    · ring
    · ring
    · by_cases hv : v1 = v2
      · simp [hv]; ring
      · have hsim : ∀ x y, _string_similarity x y = spec_jaccard x y := fun x y => by
          unfold _string_similarity spec_jaccard
          rfl
        rcases v1 with s1 | n1 <;> rcases v2 with s2 | n2
        all_goals simp [hv, hsim]
        all_goals ring

/-- C3: for every pair of parameter mappings, the similarity computed by
`_calculate_parameter_similarity` is exactly the value the spec prescribes:
1.0 for two empty mappings, 0.0 when exactly one is empty or no key is
shared, and otherwise the mean over the shared keys of the per-key score
(1.0 on exact equality, else the lowercase whitespace-token Jaccard
similarity for string pairs, with its own empty-set conventions). -/
theorem c3_parameter_similarity_matches_spec (params1 params2 : ParamMap) :
    _calculate_parameter_similarity params1 params2 =
      spec_parameter_similarity params1 params2 := by
  unfold _calculate_parameter_similarity spec_parameter_similarity
  by_cases h12 : params1.isEmpty && params2.isEmpty
  · simp [h12]
  · by_cases h1 : params1.isEmpty || params2.isEmpty
    · simp [h12, h1]
    · simp only [h12, h1, Bool.false_eq_true, if_false]
      split_ifs with hc
      · rfl
      · rw [foldl_key_scores]
        simp

/-- C4: `detect_loop` returns false whenever fewer than 2 tool-call records
are in the history, regardless of the input call's name or parameters. -/
theorem c4_detect_loop_needs_two_records (p : SequentialToolProcessor)
    (tool_name : String) (parameters : ParamMap)
    (h : p.tool_call_history.length < 2) :
    p.detect_loop tool_name parameters = false := by
  unfold SequentialToolProcessor.detect_loop
  simp [h]

/-- C4 witness: a freshly constructed processor has fewer than 2 records
and `detect_loop` rejects a concrete call. -/
theorem c4_witness :
    (SequentialToolProcessor.init 2).tool_call_history.length < 2 ∧
    (SequentialToolProcessor.init 2).detect_loop "search_course_content" paramQ = false :=
  ⟨by decide, c4_detect_loop_needs_two_records _ _ _ (by decide)⟩

/-- C5 counterexample: at `current_round = 0`, `max_rounds = 0` — the state
of a freshly built `SequentialToolProcessor(max_rounds=0)` — we have
`current_round ≥ max_rounds`, where the claim demands FINAL, yet
`get_round_type` returns FIRST. -/
theorem c5_counterexample :
    procZero.max_rounds ≤ procZero.current_round ∧
    procZero.get_round_type = ConversationRound.FIRST_ROUND ∧
    ConversationRound.FIRST_ROUND ≠ ConversationRound.FINAL_ROUND := by
  refine ⟨by decide, by decide, by decide⟩

/-- C5 amended: `get_round_type` returns FIRST exactly at round 0 (even
when `0 ≥ max_rounds`), FOLLOW_UP exactly when `0 < round < max_rounds`,
and FINAL exactly when `round ≥ max_rounds` and `round > 0`; and
`should_continue_rounds` holds exactly when `round < max_rounds` (so with
`max_rounds = 2` it holds at rounds 0 and 1 and fails at round 2). -/
theorem c5_round_type_amended (p : SequentialToolProcessor) :
    (p.get_round_type = ConversationRound.FIRST_ROUND ↔ p.current_round = 0) ∧
    (p.get_round_type = ConversationRound.FOLLOW_UP_ROUND ↔
      0 < p.current_round ∧ p.current_round < p.max_rounds) ∧
    (p.get_round_type = ConversationRound.FINAL_ROUND ↔
      p.max_rounds ≤ p.current_round ∧ 0 < p.current_round) ∧
    (p.should_continue_rounds = true ↔ p.current_round < p.max_rounds) := by
  unfold SequentialToolProcessor.get_round_type SequentialToolProcessor.should_continue_rounds
  split_ifs with h1 h2 <;> simp_all <;> omega

/-- C8: executing an unregistered tool name returns the literal
"Tool '<name>' not found" string and raises nothing (an `.ok` result). -/
theorem c8_unknown_tool_not_found (m : ToolManager) (tool_name : String)
    (kwargs : ParamMap) (h : ∀ t ∈ m.tools, t.name ≠ tool_name) :
    m.execute_tool tool_name kwargs =
      .ok ("Tool '" ++ tool_name ++ "' not found") := by
  unfold ToolManager.execute_tool
  rw [List.find?_eq_none.mpr]
  intro t ht
  simp [h t ht]

/-- C8 witness: the concrete registry holds no tool named
`get_course_outline`, and invoking that name yields the literal string. -/
theorem c8_witness :
    (∀ t ∈ mgrSearch.tools, t.name ≠ "get_course_outline") ∧
    mgrSearch.execute_tool "get_course_outline" [] =
      .ok "Tool 'get_course_outline' not found" :=
  ⟨by intro t ht; fin_cases ht; decide,
   c8_unknown_tool_not_found _ _ _ (by intro t ht; fin_cases ht; decide)⟩

/-- C6: when a tool's execution raises during a round, the dispatch loop
does not propagate the exception: the failing call's slot in the batch
receives a tool-result whose content is the "Tool execution error: …"
description, the remaining blocks of the batch are still processed (the
tail of the output is exactly the processing of `rest` from the updated
state), and the round is not aborted (the batch handed back is non-empty,
so the round loop appends it and continues). -/
theorem c6_tool_error_recovered (proc : SequentialToolProcessor)
    (mgr : ToolManager) (id name : String) (input : ParamMap)
    (rest : List ContentBlock) (e : String)
    (hl : proc.detect_loop name input = false)
    (he : mgr.execute_tool name input = .error e) :
    execToolBlocks proc mgr (ContentBlock.tool_use id name input :: rest) =
      ((⟨id, "Tool execution error: " ++ e ++ ". Please work with available information."⟩ : ToolResult) ::
         (execToolBlocks (proc.add_tool_call_record name input) mgr rest).1,
       (execToolBlocks (proc.add_tool_call_record name input) mgr rest).2.1,
       Event.toolExec name input ::
         (execToolBlocks (proc.add_tool_call_record name input) mgr rest).2.2) ∧
    (_execute_tools_with_loop_detection proc mgr
        ⟨ContentBlock.tool_use id name input :: rest, "tool_use"⟩).1.isSome = true := by
  have hmain : execToolBlocks proc mgr (ContentBlock.tool_use id name input :: rest) =
      ((⟨id, "Tool execution error: " ++ e ++ ". Please work with available information."⟩ : ToolResult) ::
         (execToolBlocks (proc.add_tool_call_record name input) mgr rest).1,
       (execToolBlocks (proc.add_tool_call_record name input) mgr rest).2.1,
       Event.toolExec name input ::
         (execToolBlocks (proc.add_tool_call_record name input) mgr rest).2.2) := by
    conv_lhs => rw [execToolBlocks]
    rcases hrec : execToolBlocks (proc.add_tool_call_record name input) mgr rest with
      ⟨rs, proc2, evs⟩
    simp [hl, he, hrec]
  refine ⟨hmain, ?_⟩
  unfold _execute_tools_with_loop_detection
  simp [hmain]

/-- C6 witness: a concrete fresh processor and a registry whose tool
raises; the error text is embedded in the batch and the batch is kept. -/
theorem c6_witness :
    (SequentialToolProcessor.init 2).detect_loop "broken_tool" paramQ = false ∧
    mgrRaise.execute_tool "broken_tool" paramQ = .error "Database connection failed" ∧
    execToolBlocks (SequentialToolProcessor.init 2) mgrRaise
        [ContentBlock.tool_use "tool1" "broken_tool" paramQ] =
      ([⟨"tool1", "Tool execution error: Database connection failed. Please work with available information."⟩],
       ((SequentialToolProcessor.init 2).add_tool_call_record "broken_tool" paramQ),
       [Event.toolExec "broken_tool" paramQ]) :=
  ⟨by decide, rfl, by
    have h := c6_tool_error_recovered (SequentialToolProcessor.init 2) mgrRaise
      "tool1" "broken_tool" paramQ [] "Database connection failed" (by decide) rfl
    simpa using h.1⟩

/-- Helper for C7: after clearing every tool's sources and letting the tool
named `nm` produce the non-empty list `srcs`, the registry scan finds
exactly `srcs`. -/
lemma get_last_sources_after_clear_and_produce (nm : String) (srcs : List Source)
    (hne : srcs ≠ []) :
    ∀ ts : List RegisteredTool, ts.any (fun t => t.name = nm) = true →
      (ToolManager.set_sources (ToolManager.reset_sources ⟨ts⟩) nm srcs).get_last_sources = srcs := by
  intro ts
  induction ts with
  | nil => intro hmem; simp at hmem
  | cons t rest ih =>
    intro hmem
    by_cases hn : t.name = nm
    · unfold ToolManager.reset_sources ToolManager.set_sources ToolManager.get_last_sources
      simp [hn, List.find?_cons, hne]
    · have hmem' : rest.any (fun t => t.name = nm) = true := by
        simpa [hn] using hmem
      have := ih hmem'
      unfold ToolManager.reset_sources ToolManager.set_sources ToolManager.get_last_sources at this ⊢
      simpa [hn, List.find?_cons] using this

/-- C7 counterexample: with `t1` registered before `t2`, `t1` produces
`[srcA]` and afterwards `t2` produces `[srcB]`; `get_last_sources` returns
the stale `[srcA]` of the first registered tool, not the most recently
produced `[srcB]` the claim demands. -/
theorem c7_counterexample :
    mgrProduced.get_last_sources = [srcA] ∧
    mgrProduced.get_last_sources ≠ [srcB] := by
  refine ⟨by decide, by decide⟩

/-- C7 amended: `get_last_sources` returns the `last_sources` of the first
tool in registration order whose list is non-empty, which coincides with
the most recently produced list only under the single-producer discipline:
starting from cleared sources (the post-`reset_sources` state), after one
registered tool produces a non-empty list, `get_last_sources` returns
exactly that list. -/
theorem c7_first_nonempty_amended (m : ToolManager) (nm : String)
    (srcs : List Source) (hne : srcs ≠ [])
    (hmem : m.tools.any (fun t => t.name = nm) = true) :
    ((m.reset_sources).set_sources nm srcs).get_last_sources = srcs := by
  obtain ⟨ts⟩ := m
  exact get_last_sources_after_clear_and_produce nm srcs hne ts hmem

/-- C7 witness: after clearing the two-tool registry, `t2` produces
`[srcB]` and the scan returns exactly it. -/
theorem c7_witness :
    ([srcB] ≠ ([] : List Source)) ∧
    mgrTwoTools.tools.any (fun t => t.name = "t2") = true ∧
    ((mgrTwoTools.reset_sources).set_sources "t2" [srcB]).get_last_sources = [srcB] :=
  ⟨by decide, by decide,
   c7_first_nonempty_amended mgrTwoTools "t2" [srcB] (by decide) (by decide)⟩

/-- C10: on an empty, error-free provider result, `CourseSearchTool.execute`
builds the "No relevant content found" message naming the lesson filter
exactly when the integer `lesson_number` is nonzero: the integer 0 falls
through Python's truthiness test and is treated as an absent filter. -/
theorem c10_lesson_zero_truthiness (tool : CourseSearchTool) (query : String)
    (course_name : Option String) (n : Int)
    (herr : (tool.store.search query course_name (some n)).error = none)
    (hemp : (tool.store.search query course_name (some n)).documents = []) :
    (tool.execute query course_name (some n)).1 =
      "No relevant content found" ++
        (if pyTruthyStr course_name then " in course '" ++ course_name.getD "" ++ "'" else "") ++
        (if n = 0 then "" else " in lesson " ++ toString n) ++ "." := by
  unfold CourseSearchTool.execute
  simp only [herr]
  have hempty : (tool.store.search query course_name (some n)).is_empty = true := by
    unfold SearchResults.is_empty
    simp [hemp]
  simp only [hempty, if_true]
  by_cases h0 : n = 0
  · simp [h0, pyTruthyInt]
  · simp [h0, pyTruthyInt, String.append_assoc]

/-- C1 counterexample: from freshly reset state, a model that requests the
same tool with identical parameters twice in a row is NOT short-circuited:
the run's event trace shows the identical request executed in both rounds —
2 tool executions, not the 1 the claim demands (with fewer than 2 recorded
calls, `detect_loop` cannot fire, so the second identical request still
executes). -/
theorem c1_counterexample :
    runRepeat.2 =
      [Event.apiCall (some schemasOne),
       Event.toolExec "search_course_content" paramQ,
       Event.apiCall (some schemasOne),
       Event.toolExec "search_course_content" paramQ,
       Event.apiCall none] ∧
    countToolExecs runRepeat.2 = 2 :=
  ⟨by decide, by decide⟩

/-- C1 amended: a repeated request is short-circuited by loop detection
only once at least 2 calls are recorded: whenever `detect_loop` flags a
requested call (same tool name and parameter similarity above the threshold
against one of the last 3 records, possible only with ≥ 2 records), that
call is not executed — the batch ends with the single synthetic
loop-detected tool-result in its place, the processor state is untouched,
and the remaining calls of the batch are skipped. -/
theorem c1_loop_short_circuit_amended (proc : SequentialToolProcessor)
    (mgr : ToolManager) (id name : String) (input : ParamMap)
    (rest : List ContentBlock)
    (h : proc.detect_loop name input = true) :
    execToolBlocks proc mgr (ContentBlock.tool_use id name input :: rest) =
      ([⟨id, loopDetectedMsg⟩], proc, []) := by
  conv_lhs => rw [execToolBlocks]
  simp [h]

/-- C1 witness: a processor that has recorded the identical call twice
flags the third identical request, which is short-circuited without being
executed. -/
theorem c1_witness :
    procLoopState.detect_loop "search_course_content" paramQ = true ∧
    execToolBlocks procLoopState mgrSearch
        [ContentBlock.tool_use "tool3" "search_course_content" paramQ] =
      ([⟨"tool3", loopDetectedMsg⟩], procLoopState, []) := by
  have hd : procLoopState.detect_loop "search_course_content" paramQ = true := by
    unfold procLoopState SequentialToolProcessor.detect_loop
    simp [lastN, _calculate_parameter_similarity, keysOf, pyGet, paramQ]
    norm_num
  exact ⟨hd, c1_loop_short_circuit_amended _ _ _ _ _ _ hd⟩

/-- C2: with `max_tool_rounds = 2` and a model whose every response
requests a (single) tool call, one `generate_response` run performs exactly
2 tool executions and exactly 3 reasoning-model calls — the two round calls
carry the tool schemas and the forced synthesis call carries none. -/
theorem c2_two_rounds_then_synthesis (mdl query : String) (hist : Option String)
    (ts : List ToolSchema) (mgr : ToolManager) (script : Nat → ModelResponse)
    (hts : ts ≠ [])
    (hscript : ∀ n, ∃ id name input,
      script n = ⟨[ContentBlock.tool_use id name input], "tool_use"⟩) :
    countToolExecs (generate_response ⟨mdl, 2⟩ script query hist (some ts) (some mgr)).2 = 2 ∧
    apiToolsTrace (generate_response ⟨mdl, 2⟩ script query hist (some ts) (some mgr)).2 =
      [some ts, some ts, none] := by
  obtain ⟨i0, n0, p0, h0⟩ := hscript 0
  obtain ⟨i1, n1, p1, h1⟩ := hscript 1
  have htsb : pyTruthyTools (some ts) = true := by
    simp [pyTruthyTools, hts]
  have hrun : (generate_response ⟨mdl, 2⟩ script query hist (some ts) (some mgr)).2 =
      [Event.apiCall (some ts), Event.toolExec n0 p0,
       Event.apiCall (some ts), Event.toolExec n1 p1,
       Event.apiCall none] := by
    rcases he0 : mgr.execute_tool n0 p0 with s0 | e0 <;>
      rcases he1 : mgr.execute_tool n1 p1 with s1 | e1 <;>
    · unfold generate_response _handle_sequential_tool_rounds
      simp [htsb, roundLoop, SequentialToolProcessor.init, SequentialToolProcessor.reset_state,
        SequentialToolProcessor.should_continue_rounds, h0, h1, he0, he1,
        _execute_tools_with_loop_detection, execToolBlocks, lastN,
        SequentialToolProcessor.detect_loop, SequentialToolProcessor.add_tool_call_record,
        SequentialToolProcessor.update_gathered_info, _make_final_synthesis_call]
      rcases pyFirstText (script 2) with t2 | e2 <;> rfl
  rw [hrun]
  constructor
  · rfl
  · rfl

/-- C2 witness: a model constantly requesting the same single search call
against the concrete one-tool registry: 2 executions, 3 calls, synthesis
without schemas. -/
theorem c2_witness :
    schemasOne ≠ [] ∧
    (∀ n, ∃ id name input, scriptAlways n =
      ⟨[ContentBlock.tool_use id name input], "tool_use"⟩) ∧
    countToolExecs (generate_response ⟨"claude-sonnet-4", 2⟩ scriptAlways "q" none
      (some schemasOne) (some mgrSearch)).2 = 2 ∧
    apiToolsTrace (generate_response ⟨"claude-sonnet-4", 2⟩ scriptAlways "q" none
      (some schemasOne) (some mgrSearch)).2 = [some schemasOne, some schemasOne, none] := by
  have hs : ∀ n, ∃ id name input, scriptAlways n =
      ⟨[ContentBlock.tool_use id name input], "tool_use"⟩ :=
    fun _ => ⟨"tool1", "search_course_content", paramQ, rfl⟩
  have h := c2_two_rounds_then_synthesis "claude-sonnet-4" "q" none schemasOne mgrSearch
    scriptAlways (by decide) hs
  exact ⟨by decide, hs, h.1, h.2⟩

/-- C9: with tools absent/empty or no tool manager, `generate_response`
issues exactly one reasoning-model call, carrying no tool schemas, with no
round machinery or synthesis step, and returns that call's text. -/
theorem c9_no_tools_single_call (gen : AIGenerator) (script : Nat → ModelResponse)
    (query : String) (hist : Option String) (tools : Option (List ToolSchema))
    (tool_manager : Option ToolManager) (t : String) (rest : List ContentBlock)
    (hfalsy : tools = none ∨ tools = some [] ∨ tool_manager = none)
    (hresp : (script 0).content = ContentBlock.text t :: rest) :
    generate_response gen script query hist tools tool_manager =
      (.ok t, [Event.apiCall none]) := by
  unfold generate_response
  have hcond : (!pyTruthyTools tools || tool_manager.isNone) = true := by
    rcases hfalsy with h | h | h <;> simp [h, pyTruthyTools]
  simp [hcond, _generate_simple_response, pyFirstText, hresp]

/-- C9 witness: no tools and no manager supplied; the model's text comes
back from a single no-tools call. -/
theorem c9_witness :
    ((none : Option (List ToolSchema)) = none ∨ (none : Option (List ToolSchema)) = some [] ∨
      (none : Option ToolManager) = none) ∧
    respDone.content = ContentBlock.text "done" :: [] ∧
    generate_response genTwoRounds (fun _ => respDone) "hi" none none none =
      (.ok "done", [Event.apiCall none]) :=
  ⟨Or.inl rfl, rfl,
   c9_no_tools_single_call genTwoRounds (fun _ => respDone) "hi" none none none
     "done" [] (Or.inl rfl) rfl⟩

/-- C10 witness: with an always-empty error-free provider, lesson number 0
yields a message with no lesson filter while lesson number 5 names the
lesson. -/
theorem c10_witness :
    (toolOnEmpty.store.search "q" none (some 0)).error = none ∧
    (toolOnEmpty.store.search "q" none (some 0)).documents = [] ∧
    (toolOnEmpty.execute "q" none (some 0)).1 = "No relevant content found." ∧
    (toolOnEmpty.execute "q" none (some 5)).1 = "No relevant content found in lesson 5." :=
  ⟨rfl, rfl,
   by simpa using c10_lesson_zero_truthiness toolOnEmpty "q" none 0 rfl rfl,
   by simpa using c10_lesson_zero_truthiness toolOnEmpty "q" none 5 rfl rfl⟩

